import Mathlib

/-!
Verification of the solace-rs core: a shallow embedding of the message
builder, message accessors and session operations from
`src/message.rs`, `src/message/outbound.rs` and `src/session.rs`.

Native (FFI) calls are modelled environment-style: each native call's
return code is an explicit `Int` input (taken from a `BuildEnv` record for
`build()`), and the sequence of native calls a function performs is
returned as an explicit trace (`List NativeCall`) so that allocation/free
accounting is visible. The state a native message handle accumulates is
the record `NativeMsg`; native setters use copy-in semantics and native
getters return the stored bytes, following the native layer's documented
contract.
-/

deriving instance DecidableEq for Except

/-- Modelled from the spec: the status translator enum
`SolClientReturnCode` is declared in the crate root, which is not among
the given source files. The spec fixes the closed outcome set
`{Ok, Fail, NotFound, InProgress, ...}` decoded from a native integer;
integers outside the known set decode to `none` (`enum_primitive`'s
`from_i32`). Concrete integer values follow the native library's
convention (`Ok = 0`, `Fail = -1`, `InProgress = 2`, `NotFound = 5`). -/
inductive SolClientReturnCode where
  | Ok
  | Fail
  | NotFound
  | InProgress
deriving DecidableEq, Repr

/-- Embeds `SolClientReturnCode::from_i32` (via `enum_primitive`): a partial
decoding of the native integer; unknown codes give `none`. -/
def SolClientReturnCode.from_i32 : Int → Option SolClientReturnCode
  | 0 => some SolClientReturnCode.Ok
  | -1 => some SolClientReturnCode.Fail
  | 5 => some SolClientReturnCode.NotFound
  | 2 => some SolClientReturnCode.InProgress
  | _ => none

/-- The native calls the embedded functions can perform, recorded in
traces for allocation/free accounting. -/
inductive NativeCall where
  | msg_alloc
  | msg_free
  | setDeliveryMode
  | setDestination
  | setBinaryAttachmentString
  | setCorrelationId
  | setClassOfService
  | sendMsg
  | topicSubscribe
  | topicUnsubscribe
deriving DecidableEq, Repr

/-- Embeds `ffi::SOLCLIENT_DELIVERY_MODE_DIRECT` (ffi crate not among the given
sources; value as in the native headers). -/
def SOLCLIENT_DELIVERY_MODE_DIRECT : Nat := 0x00

/-- Embeds `ffi::SOLCLIENT_DELIVERY_MODE_PERSISTENT`. -/
def SOLCLIENT_DELIVERY_MODE_PERSISTENT : Nat := 0x10

/-- Embeds `ffi::SOLCLIENT_DELIVERY_MODE_NONPERSISTENT`. -/
def SOLCLIENT_DELIVERY_MODE_NONPERSISTENT : Nat := 0x20

/-- Embeds `ffi::SOLCLIENT_COS_1`. -/
def SOLCLIENT_COS_1 : Nat := 0

/-- Embeds `ffi::SOLCLIENT_COS_2`. -/
def SOLCLIENT_COS_2 : Nat := 1

/-- Embeds `ffi::SOLCLIENT_COS_3`. -/
def SOLCLIENT_COS_3 : Nat := 2

/-- Embeds `DeliveryMode` from `src/message.rs` (`Direct`, `Persistent`,
`NonPersistent`, `#[repr(u32)]` over the ffi constants). -/
inductive DeliveryMode where
  | Direct
  | Persistent
  | NonPersistent
deriving DecidableEq, Repr

/-- The `delivery_mode as u32` cast used in `build()`. -/
def DeliveryMode.as_u32 : DeliveryMode → Nat
  | DeliveryMode.Direct => SOLCLIENT_DELIVERY_MODE_DIRECT
  | DeliveryMode.Persistent => SOLCLIENT_DELIVERY_MODE_PERSISTENT
  | DeliveryMode.NonPersistent => SOLCLIENT_DELIVERY_MODE_NONPERSISTENT

/-- Embeds `ClassOfService` from `src/message.rs` (`One`, `Two`, `Three`). -/
inductive ClassOfService where
  | One
  | Two
  | Three
deriving DecidableEq, Repr

/-- Embeds `impl From<ClassOfService> for u32` from `src/message.rs`. -/
def ClassOfService.into_u32 : ClassOfService → Nat
  | ClassOfService.One => SOLCLIENT_COS_1
  | ClassOfService.Two => SOLCLIENT_COS_2
  | ClassOfService.Three => SOLCLIENT_COS_3

/-- Modelled from the spec: `DestinationType` lives in
`src/message/destination.rs`, which is not among the given source files.
The spec's Destination Model has kinds Topic and Queue plus a native
"null destination" sentinel kind. -/
inductive DestinationType where
  | Topic
  | Queue
  | Null
deriving DecidableEq, Repr

/-- Modelled from the spec: `DestinationType::to_i32`, the native integer
for each destination kind (`NULL_DESTINATION = -1`, `TOPIC = 0`,
`QUEUE = 1` as in the native headers). -/
def DestinationType.to_i32 : DestinationType → Int
  | DestinationType.Topic => 0
  | DestinationType.Queue => 1
  | DestinationType.Null => -1

/-- Modelled from the spec: decoding of the native destination-kind
integer; unknown integers map to the null sentinel. -/
def DestinationType.of_i32 (i : Int) : DestinationType :=
  if i = 0 then DestinationType.Topic
  else if i = 1 then DestinationType.Queue
  else DestinationType.Null

/-- Modelled from the spec: `MessageDestination` from
`src/message/destination.rs` (not among the given source files) — a
destination kind plus the destination name, held as the bytes of a
C string (no interior null). -/
structure MessageDestination where
  dest_type : DestinationType
  dest : List Nat
deriving DecidableEq, Repr

/-- Modelled from the spec: `impl From<ffi::solClient_destination> for
MessageDestination`, copying the kind and name bytes out of the native
struct (the struct is modelled as the pair of its two fields). -/
def MessageDestination.from (s : Int × List Nat) : MessageDestination :=
  { dest_type := DestinationType.of_i32 s.1, dest := s.2 }

/-- Embeds `std::ffi::CString::new`: fails (with `NulError`) exactly when the
supplied bytes contain an embedded null terminator; otherwise the bytes
are stored unchanged (the terminating null is implicit). -/
def CString.new (bytes : List Nat) : Except Unit (List Nat) :=
  if 0 ∈ bytes then Except.error () else Except.ok bytes

/-- A UTF-8 continuation byte (`0x80..=0xBF`). -/
def isCont (b : Nat) : Bool := 0x80 ≤ b && b ≤ 0xBF

/-- Validity of a byte sequence as UTF-8, exactly as Rust's
`str::from_utf8` / `CStr::to_str` accept it (RFC 3629: no overlong
encodings, no surrogates, code points at most `0x10FFFF`). -/
def isValidUtf8 : List Nat → Bool
  | [] => true
  | b :: rest =>
    if b ≤ 0x7F then isValidUtf8 rest
    else if 0xC2 ≤ b && b ≤ 0xDF then
      match rest with
      | c1 :: rest1 => isCont c1 && isValidUtf8 rest1
      | [] => false
    else if b = 0xE0 then
      match rest with
      | c1 :: c2 :: rest2 =>
        (0xA0 ≤ c1 && c1 ≤ 0xBF) && isCont c2 && isValidUtf8 rest2
      | _ => false
    else if 0xE1 ≤ b && b ≤ 0xEC then
      match rest with
      | c1 :: c2 :: rest2 => isCont c1 && isCont c2 && isValidUtf8 rest2
      | _ => false
    else if b = 0xED then
      match rest with
      | c1 :: c2 :: rest2 =>
        (0x80 ≤ c1 && c1 ≤ 0x9F) && isCont c2 && isValidUtf8 rest2
      | _ => false
    else if 0xEE ≤ b && b ≤ 0xEF then
      match rest with
      | c1 :: c2 :: rest2 => isCont c1 && isCont c2 && isValidUtf8 rest2
      | _ => false
    else if b = 0xF0 then
      match rest with
      | c1 :: c2 :: c3 :: rest3 =>
        (0x90 ≤ c1 && c1 ≤ 0xBF) && isCont c2 && isCont c3 && isValidUtf8 rest3
      | _ => false
    else if 0xF1 ≤ b && b ≤ 0xF3 then
      match rest with
      | c1 :: c2 :: c3 :: rest3 =>
        isCont c1 && isCont c2 && isCont c3 && isValidUtf8 rest3
      | _ => false
    else if b = 0xF4 then
      match rest with
      | c1 :: c2 :: c3 :: rest3 =>
        (0x80 ≤ c1 && c1 ≤ 0x8F) && isCont c2 && isCont c3 && isValidUtf8 rest3
      | _ => false
    else false

/-- Embeds `SolaceError` from the crate root (not among the given source files):
its uses in `src/message.rs` (`Err(SolaceError)`, `map_err(|_| SolaceError)`)
show it is a unit struct — a single error value with no variants. -/
structure SolaceError where
deriving DecidableEq, Repr

/-- Embeds `MessageBuilderError` from `src/message/outbound.rs`. `InvalidArgs`
absorbs the `NulError` payload (`#[from]`); the payload carries no
information relevant to the verified properties. -/
inductive MessageBuilderError where
  | InvalidArgs
  | MissingArgs (field : String)
  | SolClientError
  | MessageAlocFailure
deriving DecidableEq, Repr

/-- Modelled from the spec: `SessionError` is declared in the crate root,
which is not among the given source files. The spec names
`Error::InvalidArgs` for embedded terminators (the `#[from]` conversion of
`NulError` applied by `?` in `subscribe`/`unsubscribe`) and
`SubscriptionFailure` / `UnsubscriptionFailure` carrying the offending
topic text (held here as the topic's C-string bytes). -/
inductive SessionError where
  | InvalidArgs
  | SubscriptionFailure (topic : List Nat)
  | UnsubscriptionFailure (topic : List Nat)
deriving DecidableEq, Repr

/-- The state a native message handle accumulates: one optional slot per
field the builder can apply. Native setters copy values in; native
getters return the stored bytes. -/
structure NativeMsg where
  delivery_mode : Option Nat := none
  destination : Option (Int × List Nat) := none
  binary_attachment : Option (List Nat) := none
  correlation_id : Option (List Nat) := none
  class_of_service : Option Nat := none
deriving DecidableEq, Repr

/-- Embeds `OutboundMessage` from `src/message/outbound.rs`: wraps the one
allocated native message handle, modelled by the handle's state. -/
structure OutboundMessage where
  msg_ptr : NativeMsg
deriving DecidableEq, Repr

/-- Embeds `OutboundMessageBuilder` from `src/message/outbound.rs`: the five
optional fields. The `CString` fields hold the C string's bytes. -/
structure OutboundMessageBuilder where
  delivery_mode : Option DeliveryMode := none
  destination : Option MessageDestination := none
  message : Option (List Nat) := none
  correlation_id : Option (List Nat) := none
  class_of_service : Option ClassOfService := none
deriving DecidableEq, Repr

/-- Embeds `OutboundMessageBuilder::new`. -/
def OutboundMessageBuilder.new : OutboundMessageBuilder := {}

/-- Embeds `OutboundMessageBuilder::set_delivery_mode`. -/
def OutboundMessageBuilder.set_delivery_mode
    (b : OutboundMessageBuilder) (mode : DeliveryMode) : OutboundMessageBuilder :=
  { b with delivery_mode := some mode }

/-- Embeds `OutboundMessageBuilder::set_destination`. -/
def OutboundMessageBuilder.set_destination
    (b : OutboundMessageBuilder) (destination : MessageDestination) : OutboundMessageBuilder :=
  { b with destination := some destination }

/-- Embeds `OutboundMessageBuilder::set_class_of_service`. -/
def OutboundMessageBuilder.set_class_of_service
    (b : OutboundMessageBuilder) (cos : ClassOfService) : OutboundMessageBuilder :=
  { b with class_of_service := some cos }

/-- Embeds `OutboundMessageBuilder::set_binary_string`: `CString::new(message)?`
stored into the `message` field; an embedded null gives `InvalidArgs`. -/
def OutboundMessageBuilder.set_binary_string
    (b : OutboundMessageBuilder) (message : List Nat) :
    Except MessageBuilderError OutboundMessageBuilder :=
  match CString.new message with
  | Except.error _ => Except.error MessageBuilderError.InvalidArgs
  | Except.ok c => Except.ok { b with message := some c }

/-- Embeds `OutboundMessageBuilder::set_correlation_id`: `CString::new(id)?`
stored into the `correlation_id` field. -/
def OutboundMessageBuilder.set_correlation_id
    (b : OutboundMessageBuilder) (id : List Nat) :
    Except MessageBuilderError OutboundMessageBuilder :=
  match CString.new id with
  | Except.error _ => Except.error MessageBuilderError.InvalidArgs
  | Except.ok c => Except.ok { b with correlation_id := some c }

/-- The outcome of running a piece of Rust code that may panic
(`todo!()`, a failed `assert_eq!`): either it returns a value or it
diverges. -/
inductive RustOutcome (α : Type) where
  | returns (val : α)
  | panics
deriving DecidableEq, Repr

/-- Embeds `OutboundMessageBuilder::set_binary_payload` from
`src/message/outbound.rs`: its body is `todo!()`, so every call panics. -/
def OutboundMessageBuilder.set_binary_payload
    (_b : OutboundMessageBuilder) (_message : List Nat) :
    RustOutcome (Except MessageBuilderError OutboundMessageBuilder) :=
  RustOutcome.panics

/-- The native return codes the environment yields for each call
`build()` can make, in program order. -/
structure BuildEnv where
  alloc_ret : Int
  set_delivery_ret : Int
  set_destination_ret : Int
  set_attachment_ret : Int
  set_correlation_ret : Int
  set_cos_ret : Int
deriving DecidableEq, Repr

/-- The environment in which every native call in `build()` succeeds. -/
def BuildEnv.allOk (e : BuildEnv) : Prop :=
  SolClientReturnCode.from_i32 e.alloc_ret = some SolClientReturnCode.Ok ∧
  SolClientReturnCode.from_i32 e.set_delivery_ret = some SolClientReturnCode.Ok ∧
  SolClientReturnCode.from_i32 e.set_destination_ret = some SolClientReturnCode.Ok ∧
  SolClientReturnCode.from_i32 e.set_attachment_ret = some SolClientReturnCode.Ok ∧
  SolClientReturnCode.from_i32 e.set_correlation_ret = some SolClientReturnCode.Ok ∧
  SolClientReturnCode.from_i32 e.set_cos_ret = some SolClientReturnCode.Ok

instance (e : BuildEnv) : Decidable e.allOk := by
  unfold BuildEnv.allOk; infer_instance

/-- The tail of `build()`: `if let Some(cos) = self.class_of_service`
apply the class of service, else skip; then `Ok(OutboundMessage)`. -/
def buildStepCos (msg : NativeMsg) (cos : Option ClassOfService) (ret : Int)
    (tr : List NativeCall) :
    Except MessageBuilderError OutboundMessage × List NativeCall :=
  match cos with
  | none => (Except.ok { msg_ptr := msg }, tr)
  | some c =>
    if SolClientReturnCode.from_i32 ret = some SolClientReturnCode.Ok then
      (Except.ok { msg_ptr := { msg with class_of_service := some c.into_u32 } },
        tr ++ [NativeCall.setClassOfService])
    else
      (Except.error MessageBuilderError.SolClientError,
        tr ++ [NativeCall.setClassOfService])

/-- The step of `build()` before the tail: `if let Some(id) =
self.correlation_id` apply the correlation id, else skip; then the
class-of-service step. -/
def buildStepCorrelation (msg : NativeMsg) (cid : Option (List Nat))
    (cos : Option ClassOfService) (cidRet cosRet : Int) (tr : List NativeCall) :
    Except MessageBuilderError OutboundMessage × List NativeCall :=
  match cid with
  | none => buildStepCos msg cos cosRet tr
  | some id =>
    if SolClientReturnCode.from_i32 cidRet = some SolClientReturnCode.Ok then
      buildStepCos { msg with correlation_id := some id } cos cosRet
        (tr ++ [NativeCall.setCorrelationId])
    else
      (Except.error MessageBuilderError.SolClientError,
        tr ++ [NativeCall.setCorrelationId])

/-- Embeds `OutboundMessageBuilder::build` from `src/message/outbound.rs`,
line for line: allocate (failure ⇒ `MessageAlocFailure`); require and
apply the delivery mode; require and apply the destination; require and
apply the payload; optionally apply correlation id and class of service.
Every `let ... else return Err(...)` in the source returns without
freeing `msg_ptr`, so no error path appends `msg_free` to the trace. -/
def OutboundMessageBuilder.build (b : OutboundMessageBuilder) (env : BuildEnv) :
    Except MessageBuilderError OutboundMessage × List NativeCall :=
  if SolClientReturnCode.from_i32 env.alloc_ret = some SolClientReturnCode.Ok then
    match b.delivery_mode with
    | none =>
      (Except.error (MessageBuilderError.MissingArgs "delivery_mode"),
        [NativeCall.msg_alloc])
    | some dm =>
      if SolClientReturnCode.from_i32 env.set_delivery_ret = some SolClientReturnCode.Ok then
        match b.destination with
        | none =>
          (Except.error (MessageBuilderError.MissingArgs "destination"),
            [NativeCall.msg_alloc, NativeCall.setDeliveryMode])
        | some dest =>
          if SolClientReturnCode.from_i32 env.set_destination_ret
              = some SolClientReturnCode.Ok then
            match b.message with
            | none =>
              (Except.error (MessageBuilderError.MissingArgs "message"),
                [NativeCall.msg_alloc, NativeCall.setDeliveryMode,
                  NativeCall.setDestination])
            | some message =>
              if SolClientReturnCode.from_i32 env.set_attachment_ret
                  = some SolClientReturnCode.Ok then
                buildStepCorrelation
                  { delivery_mode := some dm.as_u32,
                    destination := some (dest.dest_type.to_i32, dest.dest),
                    binary_attachment := some message }
                  b.correlation_id b.class_of_service
                  env.set_correlation_ret env.set_cos_ret
                  [NativeCall.msg_alloc, NativeCall.setDeliveryMode,
                    NativeCall.setDestination, NativeCall.setBinaryAttachmentString]
              else
                (Except.error MessageBuilderError.SolClientError,
                  [NativeCall.msg_alloc, NativeCall.setDeliveryMode,
                    NativeCall.setDestination, NativeCall.setBinaryAttachmentString])
          else
            (Except.error MessageBuilderError.SolClientError,
              [NativeCall.msg_alloc, NativeCall.setDeliveryMode,
                NativeCall.setDestination])
      else
        (Except.error MessageBuilderError.SolClientError,
          [NativeCall.msg_alloc, NativeCall.setDeliveryMode])
  else
    (Except.error MessageBuilderError.MessageAlocFailure, [NativeCall.msg_alloc])

namespace Message

/-- Embeds `Message::get_correlation_id` from `src/message.rs`: the native
`solClient_msg_getCorrelationId` returns the stored C-string bytes (code
`Ok`) or reports the id absent (`NotFound`, buffer untouched); a non-Ok
code ⇒ `Err(SolaceError)`, otherwise `CStr::to_str` succeeds exactly on
valid UTF-8, with its `Utf8Error` mapped to the same `SolaceError`. -/
def get_correlation_id (m : NativeMsg) : Except SolaceError (List Nat) :=
  match m.correlation_id with
  | none => Except.error {}
  | some bytes =>
    if isValidUtf8 bytes then Except.ok bytes else Except.error {}

/-- Embeds `Message::get_payload_as_str` from `src/message.rs`: the native
`solClient_msg_getBinaryAttachmentString` returns the stored attachment
bytes (code `Ok`) or fails when none is present; a non-Ok code ⇒
`Err(SolaceError)`, otherwise `CStr::to_str` succeeds exactly on valid
UTF-8, with its `Utf8Error` mapped to the same `SolaceError`. -/
def get_payload_as_str (m : NativeMsg) : Except SolaceError (List Nat) :=
  match m.binary_attachment with
  | none => Except.error {}
  | some bytes =>
    if isValidUtf8 bytes then Except.ok bytes else Except.error {}

/-- Embeds `Message::get_destination` from `src/message.rs`, environment-style:
`ret` is the status `solClient_msg_getDestination` returns and `out` the
contents of the out-struct after the call (initialized to the null
sentinel `(-1, [])`). The source checks `== Some(NotFound)` ⇒ `Ok(None)`,
then `== Some(Fail)` ⇒ `Err(SolaceError)`, and otherwise returns
`Ok(Some(MessageDestination::from(dest_struct)))`. -/
def get_destination (ret : Int) (out : Int × List Nat) :
    Except SolaceError (Option MessageDestination) :=
  if SolClientReturnCode.from_i32 ret = some SolClientReturnCode.NotFound then
    Except.ok none
  else if SolClientReturnCode.from_i32 ret = some SolClientReturnCode.Fail then
    Except.error {}
  else
    Except.ok (some (MessageDestination.from out))

/-- Embeds `Message::get_application_message_id` from `src/message.rs`: `todo!()`. -/
def get_application_message_id (_m : NativeMsg) :
    RustOutcome (Except SolaceError (List Nat)) :=
  RustOutcome.panics

/-- Embeds `Message::get_application_message_type` from `src/message.rs`: `todo!()`. -/
def get_application_message_type (_m : NativeMsg) :
    RustOutcome (Except SolaceError (List Nat)) :=
  RustOutcome.panics

/-- Embeds `Message::get_class_of_service` from `src/message.rs`: `todo!()`. -/
def get_class_of_service (_m : NativeMsg) :
    RustOutcome (Except SolaceError ClassOfService) :=
  RustOutcome.panics

/-- Embeds `Message::get_expiration` from `src/message.rs`: `todo!()`
(`SystemTime` modelled as a natural number). -/
def get_expiration (_m : NativeMsg) : RustOutcome (Except SolaceError Nat) :=
  RustOutcome.panics

/-- Embeds `Message::get_priority` from `src/message.rs`: `todo!()`. -/
def get_priority (_m : NativeMsg) : RustOutcome (Except SolaceError Nat) :=
  RustOutcome.panics

/-- Embeds `Message::get_sequence_number` from `src/message.rs`: `todo!()`. -/
def get_sequence_number (_m : NativeMsg) : RustOutcome (Except SolaceError Int) :=
  RustOutcome.panics

end Message

/-- Embeds `Context` from the crate root (opaque here: it only does reference
counting; no claim depends on its contents). -/
structure Context where
deriving DecidableEq, Repr

/-- Embeds `Session` from `src/session.rs`: the native session handle (opaque
here) and the owning `Context`. -/
structure Session where
  context : Context := {}
deriving DecidableEq, Repr

namespace Session

/-- Embeds `Session::publish` from `src/session.rs`: takes `message:
OutboundMessage` by value, calls `solClient_session_sendMsg` with the
message's raw handle, `assert_eq!`s the decoded status against
`Some(Ok)` (a failed assertion panics), then returns `Ok(())`; at the
end of the body the by-value `message` is dropped, and
`Drop for OutboundMessage` calls `solClient_msg_free` on its handle
(also during panic unwinding). -/
def publish (_s : Session) (_message : OutboundMessage) (send_ret : Int) :
    RustOutcome (Except SessionError Unit) × List NativeCall :=
  if SolClientReturnCode.from_i32 send_ret = some SolClientReturnCode.Ok then
    (RustOutcome.returns (Except.ok ()), [NativeCall.sendMsg, NativeCall.msg_free])
  else
    (RustOutcome.panics, [NativeCall.sendMsg, NativeCall.msg_free])

/-- Embeds `Session::subscribe` from `src/session.rs`: `CString::new(topic)?`
(embedded null ⇒ `InvalidArgs`, no native call), then
`solClient_session_topicSubscribe`; a status other than `Some(Ok)` ⇒
`SubscriptionFailure` carrying the topic text. -/
def subscribe (_s : Session) (topic : List Nat) (native_ret : Int) :
    Except SessionError Unit × List NativeCall :=
  match CString.new topic with
  | Except.error _ => (Except.error SessionError.InvalidArgs, [])
  | Except.ok c_topic =>
    if SolClientReturnCode.from_i32 native_ret = some SolClientReturnCode.Ok then
      (Except.ok (), [NativeCall.topicSubscribe])
    else
      (Except.error (SessionError.SubscriptionFailure c_topic),
        [NativeCall.topicSubscribe])

/-- Embeds `Session::unsubscribe` from `src/session.rs`: same shape as
`subscribe` with `solClient_session_topicUnsubscribe` and
`UnsubscriptionFailure`. -/
def unsubscribe (_s : Session) (topic : List Nat) (native_ret : Int) :
    Except SessionError Unit × List NativeCall :=
  match CString.new topic with
  | Except.error _ => (Except.error SessionError.InvalidArgs, [])
  | Except.ok c_topic =>
    if SolClientReturnCode.from_i32 native_ret = some SolClientReturnCode.Ok then
      (Except.ok (), [NativeCall.topicUnsubscribe])
    else
      (Except.error (SessionError.UnsubscriptionFailure c_topic),
        [NativeCall.topicUnsubscribe])

end Session

/-- Spec-side description of `build()`'s result under an all-Ok native
environment, used to compare `build` against the spec's required-field
discipline (claim C4): the first unset required field in the order
delivery mode, destination, payload yields the corresponding
`MissingArgs`; with all three set the handle carries exactly the applied
fields, absent optional fields staying unapplied. -/
def requiredFieldsOutcome (b : OutboundMessageBuilder) :
    Except MessageBuilderError OutboundMessage :=
  match b.delivery_mode, b.destination, b.message with
  | none, _, _ => Except.error (MessageBuilderError.MissingArgs "delivery_mode")
  | some _, none, _ => Except.error (MessageBuilderError.MissingArgs "destination")
  | some _, some _, none => Except.error (MessageBuilderError.MissingArgs "message")
  | some dm, some dest, some message =>
    Except.ok
      { msg_ptr :=
        { delivery_mode := some dm.as_u32,
          destination := some (dest.dest_type.to_i32, dest.dest),
          binary_attachment := some message,
          correlation_id := b.correlation_id,
          class_of_service := b.class_of_service.map ClassOfService.into_u32 } }

/-- A `BuildEnv` in which every native call reports `Ok`. -/
def envOk : BuildEnv :=
  { alloc_ret := 0, set_delivery_ret := 0, set_destination_ret := 0,
    set_attachment_ret := 0, set_correlation_ret := 0, set_cos_ret := 0 }

/-- A sample destination for concrete evaluations: `Topic "test_topic"`. -/
def testDestination : MessageDestination :=
  { dest_type := DestinationType.Topic,
    dest := [116, 101, 115, 116, 95, 116, 111, 112, 105, 99] }

/-- A sample fully-populated builder for concrete evaluations:
delivery mode `Direct`, destination `Topic "test_topic"`, payload
`"Hello"`. -/
def testBuilder : OutboundMessageBuilder :=
  { delivery_mode := some DeliveryMode.Direct,
    destination := some testDestination,
    message := some [72, 101, 108, 108, 111] }

/-- Under an all-Ok native environment, `build` returns exactly what the
spec's required-field discipline describes. -/
lemma build_allOk_fst (b : OutboundMessageBuilder) (env : BuildEnv)
    (h : env.allOk) : (b.build env).fst = requiredFieldsOutcome b := by
  obtain ⟨h1, h2, h3, h4, h5, h6⟩ := h
  rcases b with ⟨dm, dest, msg, cid, cos⟩
  cases dm <;> cases dest <;> cases msg <;> cases cid <;> cases cos <;>
    simp [OutboundMessageBuilder.build, buildStepCorrelation, buildStepCos,
      requiredFieldsOutcome, h1, h2, h3, h4, h5, h6]

/-- In every native environment, a successful `build` requires delivery
mode, destination and payload to be set. -/
lemma build_ok_requires (b : OutboundMessageBuilder) (env : BuildEnv)
    (m : OutboundMessage) (hm : (b.build env).fst = Except.ok m) :
    b.delivery_mode.isSome = true ∧ b.destination.isSome = true ∧
      b.message.isSome = true := by
  rcases b with ⟨dm, dest, msg, cid, cos⟩
  cases dm with
  | none =>
    by_cases h1 : SolClientReturnCode.from_i32 env.alloc_ret
        = some SolClientReturnCode.Ok <;>
      simp [OutboundMessageBuilder.build, h1] at hm
  | some dm =>
    cases dest with
    | none =>
      by_cases h1 : SolClientReturnCode.from_i32 env.alloc_ret
          = some SolClientReturnCode.Ok <;>
        by_cases h2 : SolClientReturnCode.from_i32 env.set_delivery_ret
            = some SolClientReturnCode.Ok <;>
          simp [OutboundMessageBuilder.build, h1, h2] at hm
    | some dest =>
      cases msg with
      | none =>
        by_cases h1 : SolClientReturnCode.from_i32 env.alloc_ret
            = some SolClientReturnCode.Ok <;>
          by_cases h2 : SolClientReturnCode.from_i32 env.set_delivery_ret
              = some SolClientReturnCode.Ok <;>
            by_cases h3 : SolClientReturnCode.from_i32 env.set_destination_ret
                = some SolClientReturnCode.Ok <;>
              simp [OutboundMessageBuilder.build, h1, h2, h3] at hm
      | some msg => simp

/-- Claim C1 (evaluation at the failing inputs): on an empty builder with
the native allocation succeeding, `build()` returns
`MissingArgs("delivery_mode")` with call trace `[msg_alloc]` — the
allocated handle is never freed; likewise, when `setDeliveryMode` fails
after a successful allocation, `build()` returns `SolClientError` with
trace `[msg_alloc, setDeliveryMode]` and again no `msg_free`. The source
contradicts the claim that no handle is leaked / the handle is freed
before returning. -/
theorem build_error_paths_leak_allocated_handle :
    OutboundMessageBuilder.new.build envOk
      = (Except.error (MessageBuilderError.MissingArgs "delivery_mode"),
          [NativeCall.msg_alloc]) ∧
    NativeCall.msg_free ∉ (OutboundMessageBuilder.new.build envOk).snd ∧
    (OutboundMessageBuilder.new.set_delivery_mode DeliveryMode.Direct).build
        { envOk with set_delivery_ret := -1 }
      = (Except.error MessageBuilderError.SolClientError,
          [NativeCall.msg_alloc, NativeCall.setDeliveryMode]) ∧
    NativeCall.msg_free ∉
      ((OutboundMessageBuilder.new.set_delivery_mode DeliveryMode.Direct).build
        { envOk with set_delivery_ret := -1 }).snd := by
  decide

/-- Claim C2 (evaluation at the failing inputs): `get_destination` treats
every status other than `NotFound` and `Fail` as success — with the native
getter reporting `InProgress` (code 2) or an integer outside the known
set (code 100), the source returns `Ok(Some(...))` built from the
untouched out-struct instead of the `Err` the claim requires. -/
theorem get_destination_accepts_unknown_status :
    SolClientReturnCode.from_i32 2 = some SolClientReturnCode.InProgress ∧
    Message.get_destination 2 (-1, [])
      = Except.ok (some { dest_type := DestinationType.Null, dest := [] }) ∧
    SolClientReturnCode.from_i32 100 = none ∧
    Message.get_destination 100 (-1, [])
      = Except.ok (some { dest_type := DestinationType.Null, dest := [] }) := by
  decide

/-- Claim C3 (counterexample): on a concrete session, message and an Ok
native send status, `publish`'s native call trace is
`[sendMsg, msg_free]` — the by-value `message` parameter is dropped at
the end of the body and its handle freed, refuting the claim that
`publish` borrows the message and leaves its handle owned by the
caller. -/
theorem publish_frees_message_handle :
    Session.publish {} { msg_ptr := {} } 0
      = (RustOutcome.returns (Except.ok ()),
          [NativeCall.sendMsg, NativeCall.msg_free]) ∧
    NativeCall.msg_free ∈ (Session.publish {} { msg_ptr := {} } 0).snd := by
  decide

/-- Claim C3 (amended): `Session::publish` consumes the `OutboundMessage`
by value; the handle is passed to the native send and, when the send
status decodes to Ok, `publish` returns `Ok(())` after dropping the
message, which frees its handle exactly once — the caller cannot use the
message afterwards. -/
theorem publish_consumes_and_frees (s : Session) (msg : OutboundMessage)
    (ret : Int)
    (h : SolClientReturnCode.from_i32 ret = some SolClientReturnCode.Ok) :
    Session.publish s msg ret
      = (RustOutcome.returns (Except.ok ()),
          [NativeCall.sendMsg, NativeCall.msg_free]) := by
  simp [Session.publish, h]

/-- Witness for the amended claim C3 at a concrete session, message and
send status 0. -/
theorem publish_consumes_and_frees_witness :
    Session.publish {} { msg_ptr := {} } 0
      = (RustOutcome.returns (Except.ok ()),
          [NativeCall.sendMsg, NativeCall.msg_free]) :=
  publish_consumes_and_frees {} { msg_ptr := {} } 0 (by decide)

/-- Claim C4: under a native environment in which every call succeeds,
`build()` returns `MissingArgs("delivery_mode")` exactly when the
delivery mode is unset (whatever the other fields), then
`MissingArgs("destination")`, then `MissingArgs("message")`, and succeeds
exactly when all three required fields are set, with absent optional
fields left unapplied on the handle (the `requiredFieldsOutcome`
description); moreover in every environment a successful `build` implies
all three required fields were set. -/
theorem build_required_fields (b : OutboundMessageBuilder) (env : BuildEnv) :
    (env.allOk → (b.build env).fst = requiredFieldsOutcome b) ∧
    (∀ m, (b.build env).fst = Except.ok m →
      b.delivery_mode.isSome = true ∧ b.destination.isSome = true ∧
        b.message.isSome = true) :=
  ⟨build_allOk_fst b env, fun m hm => build_ok_requires b env m hm⟩

/-- Witness for claim C4: a builder with destination and payload set but
no delivery mode yields `MissingArgs("delivery_mode")` under the all-Ok
environment. -/
theorem build_required_fields_witness :
    ({ testBuilder with delivery_mode := none
        : OutboundMessageBuilder }.build envOk).fst
      = Except.error (MessageBuilderError.MissingArgs "delivery_mode") :=
  ((build_required_fields { testBuilder with delivery_mode := none } envOk).1
      (by decide)).trans (by decide)

/-- Claim C5 (counterexample): the error for a payload whose native read
succeeds but whose bytes `[0xFF]` are not UTF-8 and the error for a
payload whose native read fails are the very same `SolaceError` value —
the caller cannot distinguish an encoding failure from a read failure;
the same holds for `get_correlation_id`. -/
theorem payload_errors_indistinguishable :
    isValidUtf8 [255] = false ∧
    Message.get_payload_as_str { binary_attachment := some [255] }
      = Except.error {} ∧
    Message.get_payload_as_str {} = Except.error {} ∧
    Message.get_payload_as_str { binary_attachment := some [255] }
      = Message.get_payload_as_str {} ∧
    Message.get_correlation_id { correlation_id := some [255] }
      = Except.error {} ∧
    Message.get_correlation_id {} = Except.error {} ∧
    Message.get_correlation_id { correlation_id := some [255] }
      = Message.get_correlation_id {} := by
  decide

/-- Claim C5 (amended): for every byte sequence that is not valid UTF-8,
`get_payload_as_str` on a message holding it and `get_payload_as_str` on
a message whose native read fails both return the single unit
`SolaceError` value — the two failure modes are not distinguishable by
the caller; the same holds for `get_correlation_id`. -/
theorem encoding_and_read_failures_same_error (bytes : List Nat)
    (hinv : isValidUtf8 bytes = false) :
    Message.get_payload_as_str { binary_attachment := some bytes }
      = Except.error {} ∧
    Message.get_payload_as_str { binary_attachment := none }
      = Except.error {} ∧
    Message.get_payload_as_str { binary_attachment := some bytes }
      = Message.get_payload_as_str { binary_attachment := none } ∧
    Message.get_correlation_id { correlation_id := some bytes }
      = Except.error {} ∧
    Message.get_correlation_id { correlation_id := none }
      = Except.error {} ∧
    Message.get_correlation_id { correlation_id := some bytes }
      = Message.get_correlation_id { correlation_id := none } := by
  simp [Message.get_payload_as_str, Message.get_correlation_id, hinv]

/-- Witness for the amended claim C5 at the concrete non-UTF-8 byte
sequence `[0xFF]`. -/
theorem encoding_and_read_failures_same_error_witness :
    Message.get_payload_as_str { binary_attachment := some [255] }
        = Except.error {} ∧
    Message.get_payload_as_str { binary_attachment := none }
        = Except.error {} ∧
    Message.get_payload_as_str { binary_attachment := some [255] }
        = Message.get_payload_as_str { binary_attachment := none } ∧
    Message.get_correlation_id { correlation_id := some [255] }
        = Except.error {} ∧
    Message.get_correlation_id { correlation_id := none }
        = Except.error {} ∧
    Message.get_correlation_id { correlation_id := some [255] }
        = Message.get_correlation_id { correlation_id := none } :=
  encoding_and_read_failures_same_error [255] (by decide)

/-- Claim C6: `Session::publish` treats a non-Ok native send status as a
programming-contract violation — the `assert_eq!` panics, so `publish`
never surfaces the status as an error; whenever `publish` returns at all,
it returns `Ok(())`. -/
theorem publish_asserts_send_success (s : Session) (msg : OutboundMessage)
    (ret : Int) :
    (∀ r, (Session.publish s msg ret).fst = RustOutcome.returns r →
      r = Except.ok ()) ∧
    (SolClientReturnCode.from_i32 ret ≠ some SolClientReturnCode.Ok →
      (Session.publish s msg ret).fst = RustOutcome.panics) := by
  constructor
  · intro r hr
    by_cases h : SolClientReturnCode.from_i32 ret = some SolClientReturnCode.Ok <;>
      simp [Session.publish, h] at hr
    exact hr.symm
  · intro h
    simp [Session.publish, h]

/-- Witness for claim C6: with send status `-1` (`Fail`) the publish call
panics rather than returning. -/
theorem publish_asserts_send_success_witness :
    (Session.publish {} { msg_ptr := {} } (-1)).fst = RustOutcome.panics :=
  (publish_asserts_send_success {} { msg_ptr := {} } (-1)).2 (by decide)

/-- Claim C7: `subscribe` and `unsubscribe` fail with `InvalidArgs` and
perform no native call when the topic contains an embedded null; with a
null-free topic they perform the native call and map a non-Ok status to
`SubscriptionFailure` / `UnsubscriptionFailure` carrying the topic, and
an Ok status to `Ok(())`. -/
theorem subscribe_unsubscribe_contract (s : Session) (topic : List Nat)
    (ret : Int) :
    (0 ∈ topic →
      Session.subscribe s topic ret = (Except.error SessionError.InvalidArgs, []) ∧
      Session.unsubscribe s topic ret
        = (Except.error SessionError.InvalidArgs, [])) ∧
    (0 ∉ topic → SolClientReturnCode.from_i32 ret ≠ some SolClientReturnCode.Ok →
      Session.subscribe s topic ret
        = (Except.error (SessionError.SubscriptionFailure topic),
            [NativeCall.topicSubscribe]) ∧
      Session.unsubscribe s topic ret
        = (Except.error (SessionError.UnsubscriptionFailure topic),
            [NativeCall.topicUnsubscribe])) ∧
    (0 ∉ topic → SolClientReturnCode.from_i32 ret = some SolClientReturnCode.Ok →
      Session.subscribe s topic ret = (Except.ok (), [NativeCall.topicSubscribe]) ∧
      Session.unsubscribe s topic ret
        = (Except.ok (), [NativeCall.topicUnsubscribe])) := by
  refine ⟨fun h1 => ?_, fun h1 h2 => ?_, fun h1 h2 => ?_⟩
  · simp [Session.subscribe, Session.unsubscribe, CString.new, h1]
  · simp [Session.subscribe, Session.unsubscribe, CString.new, h1, h2]
  · simp [Session.subscribe, Session.unsubscribe, CString.new, h1, h2]

/-- Witness for claim C7: on topic `"t"` with status 0 both calls
succeed, and with status `-1` both report the failure carrying the
topic. -/
theorem subscribe_unsubscribe_contract_witness :
    (Session.subscribe {} [116] 0 = (Except.ok (), [NativeCall.topicSubscribe]) ∧
      Session.unsubscribe {} [116] 0
        = (Except.ok (), [NativeCall.topicUnsubscribe])) ∧
    Session.subscribe {} [116] (-1)
      = (Except.error (SessionError.SubscriptionFailure [116]),
          [NativeCall.topicSubscribe]) :=
  ⟨(subscribe_unsubscribe_contract {} [116] 0).2.2 (by decide) (by decide),
    ((subscribe_unsubscribe_contract {} [116] (-1)).2.1 (by decide)
      (by decide)).1⟩

/-- Claim C8: the text-bearing setters reject byte strings with an
embedded null via `InvalidArgs` (making no native call — they are pure
value transforms) and store the bytes otherwise; `set_delivery_mode`,
`set_destination` and `set_class_of_service` are infallible pure
transforms that return the updated builder. -/
theorem setter_contract (b : OutboundMessageBuilder) (bytes : List Nat) :
    (0 ∈ bytes →
      b.set_binary_string bytes = Except.error MessageBuilderError.InvalidArgs ∧
      b.set_correlation_id bytes = Except.error MessageBuilderError.InvalidArgs) ∧
    (0 ∉ bytes →
      b.set_binary_string bytes = Except.ok { b with message := some bytes } ∧
      b.set_correlation_id bytes
        = Except.ok { b with correlation_id := some bytes }) ∧
    (∀ mode, b.set_delivery_mode mode = { b with delivery_mode := some mode }) ∧
    (∀ d, b.set_destination d = { b with destination := some d }) ∧
    (∀ c, b.set_class_of_service c = { b with class_of_service := some c }) := by
  refine ⟨fun h => ?_, fun h => ?_, fun _ => rfl, fun _ => rfl, fun _ => rfl⟩ <;>
    simp [OutboundMessageBuilder.set_binary_string,
      OutboundMessageBuilder.set_correlation_id, CString.new, h]

/-- Witness for claim C8: bytes `[0]` are rejected with `InvalidArgs` and
bytes `[116]` are stored. -/
theorem setter_contract_witness :
    OutboundMessageBuilder.new.set_binary_string [0]
        = Except.error MessageBuilderError.InvalidArgs ∧
    OutboundMessageBuilder.new.set_correlation_id [116]
        = Except.ok
            { OutboundMessageBuilder.new with correlation_id := some [116] } :=
  ⟨((setter_contract OutboundMessageBuilder.new [0]).1 (by decide)).1,
    ((setter_contract OutboundMessageBuilder.new [116]).2.1 (by decide)).2⟩

/-- Claim C9: for every valid correlation id (UTF-8, no embedded null),
setting it on a builder whose required fields are set, building under an
all-Ok native environment and reading it back through
`get_correlation_id` returns the identical string (represented by its
UTF-8 bytes). -/
theorem correlation_id_round_trip (b : OutboundMessageBuilder) (id : List Nat)
    (env : BuildEnv) (hid : isValidUtf8 id = true) (hnul : 0 ∉ id)
    (hdm : b.delivery_mode.isSome = true) (hdest : b.destination.isSome = true)
    (hmsg : b.message.isSome = true) (henv : env.allOk) :
    ∃ b2 m,
      b.set_correlation_id id = Except.ok b2 ∧
      (b2.build env).fst = Except.ok m ∧
      Message.get_correlation_id m.msg_ptr = Except.ok id := by
  obtain ⟨dm, hdm'⟩ := Option.isSome_iff_exists.mp hdm
  obtain ⟨dest, hdest'⟩ := Option.isSome_iff_exists.mp hdest
  obtain ⟨message, hmsg'⟩ := Option.isSome_iff_exists.mp hmsg
  refine ⟨{ b with correlation_id := some id },
    { msg_ptr :=
      { delivery_mode := some dm.as_u32,
        destination := some (dest.dest_type.to_i32, dest.dest),
        binary_attachment := some message,
        correlation_id := some id,
        class_of_service := b.class_of_service.map ClassOfService.into_u32 } },
    ?_, ?_, ?_⟩
  · simp [OutboundMessageBuilder.set_correlation_id, CString.new, hnul]
  · rw [build_allOk_fst _ _ henv]
    simp [requiredFieldsOutcome, hdm', hdest', hmsg']
  · simp [Message.get_correlation_id, hid]

/-- Witness for claim C9: the id `"test"` round-trips through the sample
builder under the all-Ok environment. -/
theorem correlation_id_round_trip_witness :
    ∃ b2 m,
      testBuilder.set_correlation_id [116, 101, 115, 116] = Except.ok b2 ∧
      (b2.build envOk).fst = Except.ok m ∧
      Message.get_correlation_id m.msg_ptr
        = Except.ok [116, 101, 115, 116] :=
  correlation_id_round_trip testBuilder [116, 101, 115, 116] envOk
    (by decide) (by decide) (by decide) (by decide) (by decide) (by decide)

/-- Claim C10: every unimplemented metadata accessor
(`get_application_message_id`, `get_application_message_type`,
`get_class_of_service`, `get_expiration`, `get_priority`,
`get_sequence_number`) and the unimplemented setter
`set_binary_payload` diverges via `todo!()` on every input rather than
returning a fabricated or default value. -/
theorem unimplemented_members_panic (m : NativeMsg)
    (b : OutboundMessageBuilder) (bytes : List Nat) :
    Message.get_application_message_id m = RustOutcome.panics ∧
    Message.get_application_message_type m = RustOutcome.panics ∧
    Message.get_class_of_service m = RustOutcome.panics ∧
    Message.get_expiration m = RustOutcome.panics ∧
    Message.get_priority m = RustOutcome.panics ∧
    Message.get_sequence_number m = RustOutcome.panics ∧
    b.set_binary_payload bytes = RustOutcome.panics :=
  ⟨rfl, rfl, rfl, rfl, rfl, rfl, rfl⟩
